import Mathlib

/-!
Verification of the GEO SOFT extraction core of `orange3biosci`
(`orange3biosci/widgets/geo_soft_extractor.py`): the platform annotation
parser (`parse_platform_data`), the sample expression parser
(`parse_soft_file_directly`), the characteristics normalizer
(`parse_sample_characteristics`), and the matrix assembler
(`extract_data` / `create_orange_table`).

Embedding conventions:
* Python strings are embedded as `List Char` (`Str`); the string
  operations used by the source (`strip`, `lower`, `split`, `startswith`,
  `in`, `replace`, `isdigit`) are reimplemented structurally below, each
  one next to a comment naming the Python operation it models.  Whitespace
  and case handling are modelled for the ASCII range, which is the range
  the parsed tags and numbers live in.
* Python floats are idealized as exact decimal numbers `m * 10 ^ e`
  (`Dec10`), plus the special values `nan`, `inf`, `-inf` (`PyVal`);
  binary rounding of IEEE doubles is idealized away.  `float(str)`
  acceptance is modelled by `pyFloatVal` (underscore digit separators, a
  CPython lexical extra never exercised here, are not modelled).
* A file opened for line iteration is a `List RawLine`: a decoded line
  (with a flag recording whether the raw bytes contained undecodable
  sequences) or a point where reading raises an I/O error.
-/

namespace GeoSoft

/-- A Python string, embedded as its list of characters. -/
abbrev Str := List Char

/-- Char-list contents of a Lean string literal. -/
def str (s : String) : Str := s.data

/-- ASCII whitespace recognized by Python `str.strip()`. -/
def isSpaceChar (c : Char) : Bool :=
  c = ' ' || c = '\t' || c = '\n' || c = '\r' || c = '\x0b' || c = '\x0c'

/-- Python `s.strip()`. -/
def trimStr (s : Str) : Str :=
  ((s.dropWhile isSpaceChar).reverse.dropWhile isSpaceChar).reverse

/-- ASCII lower-casing of one character, as `str.lower()` acts on ASCII. -/
def lowerChar (c : Char) : Char :=
  if 'A' ≤ c ∧ c ≤ 'Z' then Char.ofNat (c.toNat + 32) else c

/-- Python `s.lower()`. -/
def lowerStr (s : Str) : Str := s.map lowerChar

/-- Does `p` occur at the start of `l`?  Python `s.startswith(p)`. -/
def seqStarts : Str → Str → Bool
  | [], _ => true
  | _ :: _, [] => false
  | a :: as, b :: bs => a = b && seqStarts as bs

/-- Does `needle` occur inside `hay`?  Python `needle in hay`. -/
def seqHas : Str → Str → Bool
  | p, [] => p.isEmpty
  | p, l@(_ :: rest) => seqStarts p l || seqHas p rest

/-- Python `s.split(sep)` for a one-character separator. -/
def splitCh (sep : Char) : Str → List Str
  | [] => [[]]
  | c :: rest =>
    if c = sep then [] :: splitCh sep rest
    else
      match splitCh sep rest with
      | [] => [[c]]
      | h :: t => (c :: h) :: t

/-- Python `s.split('//')`. -/
def splitSlash2 : Str → List Str
  | '/' :: '/' :: rest => [] :: splitSlash2 rest
  | c :: rest =>
    match splitSlash2 rest with
    | [] => [[c]]
    | h :: t => (c :: h) :: t
  | [] => [[]]

/-- Python `s.split('///')`. -/
def splitSlash3 : Str → List Str
  | '/' :: '/' :: '/' :: rest => [] :: splitSlash3 rest
  | c :: rest =>
    match splitSlash3 rest with
    | [] => [[c]]
    | h :: t => (c :: h) :: t
  | [] => [[]]

/-- Python `s.replace(' ', '_')`. -/
def replUnderscore (s : Str) : Str := s.map (fun c => if c = ' ' then '_' else c)

/-- Python `s.isdigit()` (ASCII digits). -/
def pyIsDigit (s : Str) : Bool := !s.isEmpty && s.all Char.isDigit

/-- Lexicographic order on strings by code point, as Python compares `str`. -/
def strLe : Str → Str → Bool
  | [], _ => true
  | _ :: _, [] => false
  | a :: as, b :: bs =>
    if a.toNat < b.toNat then true
    else if b.toNat < a.toNat then false
    else strLe as bs

/-- `strLe` as a relation, used to state sortedness. -/
def strLeR (a b : Str) : Prop := strLe a b = true

instance : DecidableRel strLeR := fun a b => inferInstanceAs (Decidable (strLe a b = true))

/-- Digit-string value, most significant first. -/
def digitsVal (s : Str) : Nat := s.foldl (fun a c => a * 10 + (c.toNat - 48)) 0

/-- Decimal digits of a natural number, as Python renders it in an f-string. -/
def natToStr (n : Nat) : Str := Nat.toDigits 10 n

/-- An exact decimal number `m * 10 ^ e`; the idealization of a finite
Python float value appearing in this program (all of which originate from
decimal literals in the parsed file). -/
structure Dec10 where
  m : Int
  e : Int
deriving DecidableEq

/-- Is `n ≤ m * 10 ^ e` (comparison against an integer bound)? -/
def Dec10.geInt (d : Dec10) (n : Int) : Bool :=
  if 0 ≤ d.e then decide (n ≤ d.m * (10 : Int) ^ d.e.toNat)
  else decide (n * (10 : Int) ^ (-d.e).toNat ≤ d.m)

/-- Does `m * 10 ^ e` denote an integer? -/
def Dec10.isInt (d : Dec10) : Bool :=
  if 0 ≤ d.e then true else decide (d.m % (10 : Int) ^ (-d.e).toNat = 0)

/-- The integer denoted, meaningful when `isInt`. -/
def Dec10.toInt (d : Dec10) : Int :=
  if 0 ≤ d.e then d.m * (10 : Int) ^ d.e.toNat else d.m / (10 : Int) ^ (-d.e).toNat

/-- The value of a Python float: a float is either NaN, an infinity, or
(in this idealization) an exact decimal. -/
inductive PyVal
  | nan
  | inf
  | ninf
  | finite (d : Dec10)
deriving DecidableEq

/-- `2 ^ k` for an integer `k`, as an exact decimal:
`2 ^ (-n) = 5 ^ n * 10 ^ (-n)`. -/
def twoPowInt (k : Int) : Dec10 :=
  if 0 ≤ k then ⟨(2 : Int) ^ k.toNat, 0⟩ else ⟨(5 : Int) ^ (-k).toNat, k⟩

/-- A numeric matrix cell after optional transformation.  `twoPow d`
denotes the real number `2 ^ (m * 10 ^ e)` for a non-integer exponent
(an irrational value, kept symbolically exact). -/
inductive PyNum
  | nan
  | inf
  | ninf
  | finite (d : Dec10)
  | twoPow (d : Dec10)
deriving DecidableEq

instance : Inhabited PyVal := ⟨PyVal.nan⟩

instance : Inhabited PyNum := ⟨PyNum.nan⟩

/-- Inclusion of parsed values into cell values. -/
def PyVal.toNum : PyVal → PyNum
  | .nan => .nan
  | .inf => .inf
  | .ninf => .ninf
  | .finite d => .finite d

/-- Python `2 ** v` for a float `v`, idealized over exact values:
`2 ** nan = nan`, `2 ** inf = inf`, `2 ** -inf = 0.0`; a finite exponent
whose value reaches `1024` overflows the double range and raises
`OverflowError` (modelled as `.error`); otherwise the exact power is
returned. -/
def pyTwoPow : PyVal → Except Unit PyNum
  | .nan => .ok .nan
  | .inf => .ok .inf
  | .ninf => .ok (.finite ⟨0, 0⟩)
  | .finite d =>
    if d.geInt 1024 then .error ()
    else if d.isInt then .ok (.finite (twoPowInt d.toInt)) else .ok (.twoPow d)

/-- The `try: value = 2 ** value except (OverflowError, ValueError): value = np.nan`
block of `create_orange_table`. -/
def applyLog2 (v : PyVal) : PyNum :=
  match pyTwoPow v with
  | .ok w => w
  | .error _ => PyNum.nan

/-- Python dict assignment `d[k] = v` on a dict represented as an
association list in insertion order: an existing key keeps its position
and its value is replaced, a new key is appended. -/
def dictInsert {α : Type} (d : List (Str × α)) (k : Str) (v : α) : List (Str × α) :=
  if (d.lookup k).isSome then d.map (fun p => if p.1 = k then (k, v) else p)
  else d ++ [(k, v)]

/-- Python `if k not in d: d[k] = []` followed by `d[k].append(x)`. -/
def dictAppend {α : Type} (d : List (Str × List α)) (k : Str) (x : α) : List (Str × List α) :=
  if (d.lookup k).isSome then d.map (fun p => if p.1 = k then (p.1, p.2 ++ [x]) else p)
  else d ++ [(k, [x])]

/-- Python `d[k][g] = v` on a `defaultdict(dict)`. -/
def dictSet2 (d : List (Str × List (Str × PyVal))) (k g : Str) (v : PyVal) :
    List (Str × List (Str × PyVal)) :=
  dictInsert d k (dictInsert ((d.lookup k).getD []) g v)

/-- Python `line.split('=')[1].strip() if '=' in line else None`. -/
def splitEqOpt (line : Str) : Option Str :=
  if seqHas (str "=") line then some (trimStr ((splitCh '=' line).getD 1 [])) else none

/-- Python `line.split('=')[1].strip() if '=' in line else ""`. -/
def splitEqD (line : Str) : Str := (splitEqOpt line).getD []

/-- Python truthiness of an `Optional[str]`: `None` and `""` are falsy. -/
def truthy (o : Option Str) : Bool := !(o.getD []).isEmpty

/-- Decimal part of `float(str)`: digits, optional fraction, optional
exponent; at least one mantissa digit; nothing may follow. -/
def pyDecimal (sgn : Int) (cs : Str) : Option PyVal :=
  let ip := cs.takeWhile Char.isDigit
  let r1 := cs.dropWhile Char.isDigit
  let fpR2 : Str × Str :=
    match r1 with
    | '.' :: r => (r.takeWhile Char.isDigit, r.dropWhile Char.isDigit)
    | _ => ([], r1)
  let fp := fpR2.1
  if ip.isEmpty && fp.isEmpty then none
  else
    let m0 : Int := sgn * Int.ofNat (digitsVal (ip ++ fp))
    let e0 : Int := -(Int.ofNat fp.length)
    match fpR2.2 with
    | [] => some (PyVal.finite ⟨m0, e0⟩)
    | 'e' :: r3 =>
      let esR4 : Int × Str :=
        match r3 with
        | '+' :: r => (1, r)
        | '-' :: r => (-1, r)
        | r => (1, r)
      let ed := esR4.2.takeWhile Char.isDigit
      if ed.isEmpty || !(esR4.2.dropWhile Char.isDigit).isEmpty then none
      else some (PyVal.finite ⟨m0, e0 + esR4.1 * Int.ofNat (digitsVal ed)⟩)
    | _ => none

/-- Python `float(s)`: strip whitespace, lower-case, optional sign, then
`inf`/`infinity`/`nan` or a decimal number; anything else raises
`ValueError` (modelled as `none`).  Note that `float("NaN")` succeeds. -/
def pyFloatVal (s : Str) : Option PyVal :=
  let t := lowerStr (trimStr s)
  if t.isEmpty then none
  else
    let sgnRest : Int × Str :=
      match t with
      | '+' :: r => (1, r)
      | '-' :: r => (-1, r)
      | r => (1, r)
    let rest := sgnRest.2
    if rest = str "infinity" ∨ rest = str "inf" then
      some (if sgnRest.1 = 1 then PyVal.inf else PyVal.ninf)
    else if rest = str "nan" then some PyVal.nan
    else pyDecimal sgnRest.1 rest

/-- One element of the line iteration over an opened file: a decoded
line (`bad` records whether its raw bytes contained undecodable
sequences; under `errors='ignore'` those bytes are dropped and `s` is
what remains, under the default strict decoding the line raises
`UnicodeDecodeError`), or a point where reading raises an I/O error. -/
inductive RawLine
  | text (s : Str) (bad : Bool)
  | fault
deriving DecidableEq

/-- A fully clean file: every line decodes under either policy. -/
def cleanFile (ls : List Str) : List RawLine := ls.map (fun s => RawLine.text s false)

/-! ### Platform annotation parser (`parse_platform_data`) -/

/-- The candidate header names searched for an Entrez id, in priority
order (`possible_fields` in the source). -/
def possible_fields : List Str :=
  [str "gene", str "geneid", str "entrez_gene_id", str "gene_id",
   str "ncbi_gene_id", str "gene_assignment"]

/-- The `gene_assignment` branch: first `//`-delimited part that is all
digits and longer than 2 characters. -/
def firstAssignEntrez : List Str → Option Str
  | [] => none
  | p :: rest =>
    let part := trimStr p
    if !part.isEmpty && pyIsDigit part && decide (2 < part.length) then some part
    else firstAssignEntrez rest

/-- The generic branch: first candidate that is all digits and longer
than 2 characters, or whose text after the first colon is all digits. -/
def firstCandEntrez : List Str → Option Str
  | [] => none
  | c :: rest =>
    let cand := trimStr c
    if pyIsDigit cand && decide (2 < cand.length) then some cand
    else if seqHas (str ":") cand then
      let pc := splitCh ':' cand
      let second := trimStr (pc.getD 1 [])
      if decide (1 < pc.length) && pyIsDigit second then some second
      else firstCandEntrez rest
    else firstCandEntrez rest

/-- Entrez extraction from one field's value. -/
def extractFromField (field value : Str) : Option Str :=
  if field = str "gene_assignment" then firstAssignEntrez (splitSlash2 value)
  else
    let candidates :=
      if seqHas (str "///") value then splitSlash3 value
      else if seqHas (str "//") value then splitSlash2 value
      else [value]
    firstCandEntrez candidates

/-- The `for field_name in possible_fields` loop of the data-row branch:
a field is examined when it is a known header, its column exists in the
row, and the column's stripped value is nonempty; if its value yields no
Entrez id, the loop continues to the next field. -/
def findEntrezGo (hidx : List (Str × Nat)) (parts : List Str) : List Str → Option Str
  | [] => none
  | f :: fs =>
    match hidx.lookup f with
    | none => findEntrezGo hidx parts fs
    | some colIdx =>
      let v := trimStr (parts.getD colIdx [])
      if decide (colIdx < parts.length) && !v.isEmpty then
        match extractFromField f v with
        | some e => some e
        | none => findEntrezGo hidx parts fs
      else findEntrezGo hidx parts fs

/-- Entrez id for one platform-table data row. -/
def findEntrez (hidx : List (Str × Nat)) (parts : List Str) : Option Str :=
  findEntrezGo hidx parts possible_fields

/-- Header line of a platform table: tab-split, each header stripped and
lower-cased, mapped to its column index (later duplicates overwrite). -/
def parseHeaders (line : Str) : List (Str × Nat) :=
  (splitCh '\t' line).enum.foldl (fun h p => dictInsert h (lowerStr (trimStr p.2)) p.1) []

/-- The mutable locals of `parse_platform_data`'s loop. -/
structure PlatState where
  platform_data : List (Str × Str)
  current_platform : Option Str
  in_platform_table : Bool
  in_table_header : Bool
  header_indices : List (Str × Nat)
deriving DecidableEq

def initPlatState : PlatState := ⟨[], none, false, false, []⟩

/-- One loop iteration of `parse_platform_data` on a decoded line. -/
def platStep (st : PlatState) (raw : Str) : PlatState :=
  let line := trimStr raw
  if seqStarts (str "^PLATFORM") line then
    { st with current_platform := splitEqOpt line, in_platform_table := false,
              in_table_header := false, header_indices := [] }
  else if truthy st.current_platform && seqStarts (str "!platform_table_begin") line then
    { st with in_platform_table := true, in_table_header := true }
  else if seqStarts (str "!platform_table_end") line then
    { st with in_platform_table := false }
  else if st.in_platform_table && truthy st.current_platform && st.in_table_header then
    { st with in_table_header := false, header_indices := parseHeaders line }
  else if st.in_platform_table && truthy st.current_platform && !line.isEmpty
          && !seqStarts (str "!") line && !seqStarts (str "#") line then
    let parts := splitCh '\t' line
    let probe_id := trimStr (parts.getD 0 [])
    match findEntrez st.header_indices parts with
    | some e => { st with platform_data := dictInsert st.platform_data probe_id e }
    | none => st
  else st

/-- The line loop of `parse_platform_data`; the file is opened with
`errors='ignore'`, so a line with undecodable bytes is processed as its
decodable remainder, while an I/O fault raises, is caught by the
`except` handler, and the function returns the data accumulated so far
(the `return platform_data` sits outside the `try`). -/
def runPlatform : PlatState → List RawLine → List (Str × Str)
  | st, [] => st.platform_data
  | st, RawLine.fault :: _ => st.platform_data
  | st, RawLine.text s _ :: rest => runPlatform (platStep st s) rest

/-- `parse_platform_data(filename)` over the embedded file. -/
def parse_platform_data (stream : List RawLine) : List (Str × Str) :=
  runPlatform initPlatState stream

/-! ### Sample expression parser (`parse_soft_file_directly`) -/

/-- The mutable locals of `parse_soft_file_directly`'s loop. -/
structure SampState where
  matching_samples : List (Str × List (Str × PyVal))
  sample_characteristics : List (Str × List Str)
  current_sample : Option Str
  current_sample_title : Option Str
  in_sample_table : Bool
  sample_data : List (Str × List (Str × PyVal))
deriving DecidableEq

def initSampState : SampState := ⟨[], [], none, none, false, []⟩

/-- One loop iteration of `parse_soft_file_directly` on a decoded line. -/
def sampStep (substring : Str) (st : SampState) (raw : Str) : SampState :=
  let line := trimStr raw
  if seqStarts (str "^SAMPLE") line then
    { st with current_sample := splitEqOpt line, current_sample_title := none,
              in_sample_table := false }
  else if truthy st.current_sample && seqStarts (str "!Sample_title") line then
    let title := splitEqD line
    if seqHas (lowerStr substring) (lowerStr title) then
      { st with current_sample_title := some title }
    else st
  else if truthy st.current_sample && truthy st.current_sample_title
          && seqStarts (str "!Sample_characteristics_ch1") line then
    { st with sample_characteristics :=
        dictAppend st.sample_characteristics (st.current_sample.getD []) (splitEqD line) }
  else if truthy st.current_sample && truthy st.current_sample_title
          && seqStarts (str "!sample_table_begin") line then
    { st with in_sample_table := true }
  else if seqStarts (str "!sample_table_end") line then
    if truthy st.current_sample && truthy st.current_sample_title then
      { st with in_sample_table := false,
                matching_samples := (dictInsert st.matching_samples (st.current_sample.getD [])
                  ((st.sample_data.lookup (st.current_sample.getD [])).getD [])) }
    else { st with in_sample_table := false }
  else if st.in_sample_table && truthy st.current_sample && truthy st.current_sample_title then
    if !line.isEmpty && !seqStarts (str "!") line && !seqStarts (str "#") line then
      let parts := splitCh '\t' line
      if decide (2 ≤ parts.length) then
        match pyFloatVal (parts.getD 1 []) with
        | some v =>
          { st with sample_data := (dictSet2 st.sample_data (st.current_sample.getD [])
              (parts.getD 0 []) v) }
        | none => st
      else st
    else st
  else st

/-- The line loop of `parse_soft_file_directly`; the file is opened with
the default strict decoding, so both an undecodable line and an I/O
fault raise, are caught, and the function returns `{}, {}`. -/
def runSamples (substring : Str) :
    SampState → List RawLine → List (Str × List (Str × PyVal)) × List (Str × List Str)
  | st, [] => (st.matching_samples, st.sample_characteristics)
  | _, RawLine.fault :: _ => ([], [])
  | st, RawLine.text s bad :: rest =>
    if bad then ([], []) else runSamples substring (sampStep substring st s) rest

/-- `parse_soft_file_directly(filename, substring)` over the embedded file. -/
def parse_soft_file_directly (stream : List RawLine) (substring : Str) :
    List (Str × List (Str × PyVal)) × List (Str × List Str) :=
  runSamples substring initSampState stream

/-! ### Characteristics normalizer and matrix assembler -/

/-- Python `s.split(':', 1)` under the guard `':' in s`. -/
def splitColon1 (s : Str) : Str × Str :=
  (s.takeWhile (fun c => c != ':'), (s.dropWhile (fun c => c != ':')).drop 1)

/-- One iteration of `parse_sample_characteristics`' loop over
characteristic lines, carrying `(parsed_chars, class_chars)`. -/
def charStep (acc : List (Str × Str) × Str) (charLine : Str) : List (Str × Str) × Str :=
  if seqHas (str ":") charLine then
    let lr := splitColon1 charLine
    let label := lowerStr (replUnderscore (trimStr lr.1))
    let value := trimStr lr.2
    (dictInsert acc.1 label value,
     acc.2 ++ value ++ (if 0 < acc.2.length then str "|" else []))
  else
    (dictInsert acc.1 (str "characteristic_" ++ natToStr acc.1.length) (trimStr charLine),
     acc.2)

/-- `parse_sample_characteristics(characteristics_list)`. -/
def parse_sample_characteristics (lst : List Str) : List (Str × Str) :=
  let pc := lst.foldl charStep ([], [])
  dictInsert pc.1 (str "class") pc.2

/-- The output contract of `create_orange_table`: sample columns with
per-sample characteristic attributes, probe rows, the dense value
matrix (rows × columns, `PyNum.nan` marking missing cells) and the
per-probe Entrez meta column. -/
structure OrangeTable where
  sample_names : List Str
  col_attrs : List (List (Str × Str))
  genes : List Str
  X : List (List PyNum)
  entrez : List Str
deriving DecidableEq

/-- One cell of the matrix fill loop: a probe present in the sample's
map contributes its (optionally transformed) value, an absent probe
leaves the `np.nan` the matrix was prefilled with. -/
def cellValue (log2 : Bool) (sd : List (Str × PyVal)) (g : Str) : PyNum :=
  match sd.lookup g with
  | none => PyNum.nan
  | some v => if log2 then applyLog2 v else v.toNum

/-- `create_orange_table(expression_data, all_genes, sample_characteristics)`
(with the platform data and the `transform_log2` setting read from the
widget state passed explicitly). -/
def create_orange_table (expr : List (Str × List (Str × PyVal))) (all_genes : List Str)
    (chars : List (Str × List Str)) (platform : List (Str × Str)) (log2 : Bool) :
    OrangeTable :=
  { sample_names := expr.map Prod.fst
    col_attrs := expr.map (fun p =>
      match chars.lookup p.1 with
      | some lst => parse_sample_characteristics lst
      | none => [])
    genes := all_genes
    X := all_genes.map (fun g => expr.map (fun p => cellValue log2 p.2 g))
    entrez := all_genes.map (fun g => (platform.lookup g).getD []) }

/-- All probe ids across all samples' maps, with multiplicity. -/
def allKeys : List (Str × List (Str × PyVal)) → List Str
  | [] => []
  | p :: rest => p.2.map Prod.fst ++ allKeys rest

/-- `all_genes = sorted(set().union(*maps))` of `extract_data`. -/
def sortedGenes (expr : List (Str × List (Str × PyVal))) : List Str :=
  List.insertionSort strLeR (allKeys expr).dedup

/-- Outcome of one `extract_data` invocation: an early `return` with no
output sent (invalid arguments), `self.Outputs.data.send(None)`, or a
sent table. -/
inductive ExtractResult
  | rejected
  | sentNone
  | sentTable (t : OrangeTable)
deriving DecidableEq

/-- `extract_data()`: argument validation, then the platform pass, the
sample pass, and table assembly. -/
def extract_data (fileExists : Bool) (stream : List RawLine) (substring : Str)
    (log2 : Bool) : ExtractResult :=
  if !fileExists then ExtractResult.rejected
  else if (trimStr substring).isEmpty then ExtractResult.rejected
  else
    let platform := parse_platform_data stream
    let pr := parse_soft_file_directly stream substring
    if pr.1.isEmpty then ExtractResult.sentNone
    else
      let all_genes := sortedGenes pr.1
      if all_genes.isEmpty then ExtractResult.sentNone
      else ExtractResult.sentTable (create_orange_table pr.1 all_genes pr.2 platform log2)

/-! ### Concrete inputs and auxiliary predicates used by the theorems -/

/-- Is this raw line a `!Sample_title` line whose title contains
`substring` case-insensitively (the sample parser's match test)? -/
def matchesTitle (substring raw : Str) : Bool :=
  seqStarts (str "!Sample_title") (trimStr raw) &&
    seqHas (lowerStr substring) (lowerStr (splitEqD (trimStr raw)))

/-- Forget decode damage: the stream as it would look decoded with
`errors='ignore'`. -/
def scrub : RawLine → RawLine
  | RawLine.text s _ => RawLine.text s false
  | RawLine.fault => RawLine.fault

/-- A sample section whose table holds the row `PROBE3\tNaN`. -/
def sampleNaNFile : List Str :=
  [str "^SAMPLE = GSM1", str "!Sample_title = Basal sample",
   str "!sample_table_begin", str "PROBE3\tNaN", str "!sample_table_end"]

/-- A state inside a matched sample's table section. -/
def stC2 : SampState := ⟨[], [], some (str "GSM1"), some (str "Basal x"), true, []⟩

/-- A file whose only sample title does not contain `"Basal"`. -/
def noMatchFile : List Str :=
  [str "^SAMPLE = GSM1", str "!Sample_title = Control thing",
   str "!sample_table_begin", str "P1\t1.0", str "!sample_table_end"]

/-- Two samples with disjoint probe sets. -/
def exprW : List (Str × List (Str × PyVal)) :=
  [(str "S1", [(str "P2", PyVal.finite ⟨1, 0⟩)]),
   (str "S2", [(str "P1", PyVal.finite ⟨2, 0⟩)])]

/-- One sample with an in-range and an overflowing log2 value. -/
def exprL : List (Str × List (Str × PyVal)) :=
  [(str "S1", [(str "P1", PyVal.finite ⟨3, 0⟩), (str "P2", PyVal.finite ⟨2000, 0⟩)])]

/-- The claim's own platform scenario: header `ID\tGENE`, row
`PROBE1\t1956///abc`, plus a row with no extractable candidate. -/
def platClaimFile : List Str :=
  [str "^PLATFORM = GPL1", str "!platform_table_begin", str "ID\tGENE",
   str "PROBE1\t1956///abc", str "PROBE5\txyz", str "!platform_table_end"]

/-- Platform table exercising field fall-through (PROBE2) and the colon
shortcut inside a `///` list (PROBE3). -/
def platFallThroughFile : List Str :=
  [str "^PLATFORM = GPL1", str "!platform_table_begin", str "ID\tGENE\tGENEID",
   str "PROBE1\t1956///abc", str "PROBE2\tabc\t1956",
   str "PROBE3\tEntrezGene:5///1956", str "PROBE4\tabc", str "!platform_table_end"]

/-- Platform table where both `gene_id` and `gene` columns hold digits:
the priority list, not header order, picks `gene`. -/
def platPriorityFile : List Str :=
  [str "^PLATFORM = GPL1", str "!platform_table_begin", str "ID\tGENE_ID\tGENE",
   str "PROBE9\t111222\t333444", str "!platform_table_end"]

/-- A platform parse interrupted by an I/O fault after one probe was
accumulated. -/
def platFaultStream : List RawLine :=
  [RawLine.text (str "^PLATFORM = GPL1") false,
   RawLine.text (str "!platform_table_begin") false,
   RawLine.text (str "ID\tGENE") false,
   RawLine.text (str "PROBE1\t1956") false, RawLine.fault]

/-- A committed matching sample followed by an undecodable line. -/
def sampBadStream : List RawLine :=
  [RawLine.text (str "^SAMPLE = GSM1") false,
   RawLine.text (str "!Sample_title = Basal A") false,
   RawLine.text (str "!sample_table_begin") false,
   RawLine.text (str "P1\t1.5") false,
   RawLine.text (str "!sample_table_end") false,
   RawLine.text (str "junk") true]

/-- A matched sample with characteristics and table rows but no
`!sample_table_end`. -/
def uncommittedFile : List Str :=
  [str "^SAMPLE = GSM1", str "!Sample_title = Basal one",
   str "!Sample_characteristics_ch1 = tissue: liver",
   str "!sample_table_begin", str "P1\t2.5"]

/-- A matched sample with a committed table and no characteristics. -/
def committedNoCharsFile : List Str :=
  [str "^SAMPLE = GSM2", str "!Sample_title = Basal two",
   str "!sample_table_begin", str "P1\t2.5", str "!sample_table_end"]

end GeoSoft

namespace GeoSoft

/-! ## Claim theorems -/

/-- C1: `parse_sample_characteristics` keeps the claim's single-line
promise (`{tissue: liver, class: liver}`), but on two lines with values
`a` and `b` the synthesized `class` entry is `"ab|"` — the `'|'`
separator is appended after each value once the accumulator is
nonempty — not the joined `"a|b"` the claim states. -/
theorem C1_class_concatenation :
    parse_sample_characteristics [str "tissue: liver"] =
      [(str "tissue", str "liver"), (str "class", str "liver")] ∧
    parse_sample_characteristics [str "tissue: a", str "sex: b"] =
      [(str "tissue", str "a"), (str "sex", str "b"), (str "class", str "ab|")] ∧
    parse_sample_characteristics [str "tissue: a", str "sex: b"] ≠
      [(str "tissue", str "a"), (str "sex", str "b"), (str "class", str "a|b")] := by
  refine ⟨by decide, by decide, by decide⟩

/-- C2 (counterexample): the table row `PROBE3\tNaN` is not skipped:
`float("NaN")` succeeds in Python, so the probe is inserted with a NaN
value. -/
theorem C2_nan_row_inserted :
    (parse_soft_file_directly (cleanFile sampleNaNFile) (str "Basal")).1 =
      [(str "GSM1", [(str "PROBE3", PyVal.nan)])] ∧
    (parse_soft_file_directly (cleanFile sampleNaNFile) (str "Basal")).1 ≠
      [(str "GSM1", [])] := by
  refine ⟨by decide, by decide⟩

/-- C5 (counterexample): with header `ID\tGENE\tGENEID`, the row
`PROBE2\tabc\t1956` gets the entry `"1956"` from the lower-priority
`geneid` field even though the higher-priority `gene` field is present
(so "first present field wins" fails), and in `PROBE3`'s
`EntrezGene:5///1956` the colon shortcut on the first candidate wins
over the later all-digit candidate (so the colon form is not a mere
fallback). -/
theorem C5_field_fallthrough :
    parse_platform_data (cleanFile platFallThroughFile) =
      [(str "PROBE1", str "1956"), (str "PROBE2", str "1956"), (str "PROBE3", str "5")] ∧
    (parse_platform_data (cleanFile platFallThroughFile)).lookup (str "PROBE2") =
      some (str "1956") ∧
    (parse_platform_data (cleanFile platFallThroughFile)).lookup (str "PROBE3") ≠
      some (str "1956") := by
  refine ⟨by decide, by decide, by decide⟩

/-- C5 (amended): the claim's own scenario (`PROBE1\t1956///abc` under
`ID\tGENE` maps to `"1956"`, an inextractable row gets no entry), the
fall-through and colon-shortcut behaviour of `platFallThroughFile`, and
priority taken from the candidate list order (`gene` beats `gene_id`
even when `gene_id` comes first in the header). -/
theorem C5_extraction_rules :
    parse_platform_data (cleanFile platClaimFile) = [(str "PROBE1", str "1956")] ∧
    parse_platform_data (cleanFile platFallThroughFile) =
      [(str "PROBE1", str "1956"), (str "PROBE2", str "1956"), (str "PROBE3", str "5")] ∧
    parse_platform_data (cleanFile platPriorityFile) = [(str "PROBE9", str "333444")] := by
  refine ⟨by decide, by decide, by decide⟩

/-- C7 (counterexample): an I/O fault that interrupts the platform parse
after `PROBE1` was accumulated yields the partial mapping, not the empty
mapping the claim states. -/
theorem C7_partial_map_kept :
    parse_platform_data platFaultStream = [(str "PROBE1", str "1956")] ∧
    parse_platform_data platFaultStream ≠ [] := by
  refine ⟨by decide, by decide⟩

/-- C8 (counterexample): one undecodable line after a fully committed
matching sample makes the sample pass return two empty mappings (the
strict-decoding `UnicodeDecodeError` is caught by the `except` that
returns `{}, {}`), while the same stream decoded cleanly yields the
sample — so the sample pass does not tolerate decode errors
permissively. -/
theorem C8_sample_pass_aborts :
    parse_soft_file_directly sampBadStream (str "Basal") = ([], []) ∧
    parse_soft_file_directly (sampBadStream.map scrub) (str "Basal") =
      ([(str "GSM1", [(str "P1", PyVal.finite ⟨15, -1⟩)])], []) := by
  refine ⟨by decide, by decide⟩

/-- C10: the two output mappings' key sets can differ — a matched sample
with characteristics but no `!sample_table_end` appears only in the
characteristics mapping; a matched sample with a committed table and no
characteristic lines appears only in the expression mapping; appending
the missing `!sample_table_end` line is exactly what commits the
accumulated table. -/
theorem C10_commit_only_at_table_end :
    parse_soft_file_directly (cleanFile uncommittedFile) (str "Basal") =
      ([], [(str "GSM1", [str "tissue: liver"])]) ∧
    parse_soft_file_directly (cleanFile committedNoCharsFile) (str "Basal") =
      ([(str "GSM2", [(str "P1", PyVal.finite ⟨25, -1⟩)])], []) ∧
    parse_soft_file_directly (cleanFile (uncommittedFile ++ [str "!sample_table_end"]))
        (str "Basal") =
      ([(str "GSM1", [(str "P1", PyVal.finite ⟨25, -1⟩)])],
       [(str "GSM1", [str "tissue: liver"])]) := by
  refine ⟨by decide, by decide, by decide⟩

/-- C2 (amended): inside a matched sample's table section, any data row
(not a tag line) with fewer than two tab-separated columns, or whose
second column Python's `float` rejects, leaves the parser state —
including the accumulated probe map — unchanged.  (`"NaN"` is accepted
by `float`, hence the separate counterexample.) -/
theorem C2_malformed_rows_skipped (substring raw : Str) (st : SampState)
    (h1 : st.in_sample_table = true)
    (h2 : truthy st.current_sample = true)
    (h3 : truthy st.current_sample_title = true)
    (h4 : seqStarts (str "^SAMPLE") (trimStr raw) = false)
    (h5 : seqStarts (str "!Sample_title") (trimStr raw) = false)
    (h6 : seqStarts (str "!Sample_characteristics_ch1") (trimStr raw) = false)
    (h7 : seqStarts (str "!sample_table_begin") (trimStr raw) = false)
    (h8 : seqStarts (str "!sample_table_end") (trimStr raw) = false)
    (h9 : (splitCh '\t' (trimStr raw)).length < 2 ∨
          pyFloatVal ((splitCh '\t' (trimStr raw)).getD 1 []) = none) :
    sampStep substring st raw = st := by
  unfold sampStep
  simp only [h1, h2, h3, h4, h5, h6, h7, h8, Bool.false_and, Bool.and_false, Bool.true_and,
    Bool.and_true, Bool.and_self, Bool.false_eq_true, if_false, if_true]
  split
  · split
    · next hlen =>
      rcases h9 with h9 | h9
      · rw [decide_eq_true_eq] at hlen
        omega
      · rw [h9]
    · rfl
  · rfl

/-- C2 witness: the single-column row `PROBE3` of the claim is skipped. -/
theorem C2_malformed_rows_skipped_witness :
    sampStep (str "basal") stC2 (str "PROBE3") = stC2 :=
  C2_malformed_rows_skipped (str "basal") (str "PROBE3") stC2 (by decide) (by decide)
    (by decide) (by decide) (by decide) (by decide) (by decide) (by decide)
    (Or.inl (by decide))

/-- A fault point in the platform stream stops the loop there; the
`except` handler then lets the accumulated data be returned. -/
theorem runPlatform_fault (st : PlatState) :
    ∀ (pre suf : List RawLine),
      runPlatform st (pre ++ RawLine.fault :: suf) = runPlatform st pre := by
  intro pre
  induction pre generalizing st with
  | nil => intro suf; rfl
  | cons hd tl ih =>
    intro suf
    cases hd with
    | fault => rfl
    | text s bad => simpa [runPlatform] using ih (platStep st s) suf

/-- C7 (amended): an I/O or decode fault mid-parse aborts the platform
pass, which yields exactly the (possibly nonempty) mapping accumulated
before the fault — the remainder of the stream is never read and no
error escapes. -/
theorem C7_fault_returns_accumulated (pre suf : List RawLine) :
    parse_platform_data (pre ++ RawLine.fault :: suf) = parse_platform_data pre :=
  runPlatform_fault initPlatState pre suf

/-- The platform loop never looks at the decode-damage flag (the file is
opened with `errors='ignore'`). -/
theorem runPlatform_scrub (st : PlatState) :
    ∀ stream : List RawLine, runPlatform st stream = runPlatform st (stream.map scrub) := by
  intro stream
  induction stream generalizing st with
  | nil => rfl
  | cons hd tl ih =>
    cases hd with
    | fault => rfl
    | text s bad => simpa [runPlatform, scrub] using ih (platStep st s)

/-- An undecodable line anywhere in the stream makes the sample pass
return two empty mappings. -/
theorem runSamples_bad_line (substring s : Str) (st : SampState) :
    ∀ (pre suf : List RawLine),
      runSamples substring st (pre ++ RawLine.text s true :: suf) = ([], []) := by
  intro pre
  induction pre generalizing st with
  | nil => intro suf; rfl
  | cons hd tl ih =>
    intro suf
    cases hd with
    | fault => rfl
    | text s' bad =>
      cases bad with
      | false => simpa [runSamples] using ih (sampStep substring st s') suf
      | true => rfl

/-- C8 (amended): the platform pass (opened with `errors='ignore'`)
treats a line with undecodable bytes exactly like its cleanly decoded
remainder and keeps parsing; the sample pass (opened with the default
strict decoding) aborts at the first undecodable byte and returns two
empty mappings. -/
theorem C8_decode_policies :
    (∀ stream : List RawLine,
      parse_platform_data stream = parse_platform_data (stream.map scrub)) ∧
    (∀ (pre suf : List RawLine) (s substring : Str),
      parse_soft_file_directly (pre ++ RawLine.text s true :: suf) substring = ([], [])) :=
  ⟨fun stream => runPlatform_scrub initPlatState stream,
   fun pre suf s substring => runSamples_bad_line substring s initSampState pre suf⟩

theorem strLe_total (a : Str) : ∀ b, strLe a b = true ∨ strLe b a = true := by
  induction a with
  | nil => intro b; left; rfl
  | cons x xs ih =>
    intro b
    cases b with
    | nil => right; rfl
    | cons y ys =>
      rcases Nat.lt_trichotomy x.toNat y.toNat with h | h | h
      · left; simp [strLe, h]
      · rcases ih ys with h2 | h2
        · left; simp [strLe, h, lt_self_iff_false, h2]
        · right; simp [strLe, h, lt_self_iff_false, h2]
      · right; simp [strLe, h]

theorem strLe_trans (a : Str) :
    ∀ b c, strLe a b = true → strLe b c = true → strLe a c = true := by
  induction a with
  | nil => intro b c _ _; rfl
  | cons x xs ih =>
    intro b c hab hbc
    cases b with
    | nil => exact absurd hab (by simp [strLe])
    | cons y ys =>
      cases c with
      | nil => exact absurd hbc (by simp [strLe])
      | cons z zs =>
        simp only [strLe] at hab hbc ⊢
        split_ifs at hab hbc ⊢ <;>
          first
          | rfl
          | omega
          | exact ih ys zs hab hbc

instance : IsTotal Str strLeR := ⟨strLe_total⟩

instance : IsTrans Str strLeR := ⟨fun a b c => strLe_trans a b c⟩

theorem mem_allKeys (g : Str) :
    ∀ expr : List (Str × List (Str × PyVal)),
      g ∈ allKeys expr ↔ ∃ p ∈ expr, g ∈ p.2.map Prod.fst := by
  intro expr
  induction expr with
  | nil => simp [allKeys]
  | cons hd tl ih => simp [allKeys, ih]

/-- Membership in `all_genes` is membership in some sample's key set. -/
theorem sortedGenes_mem (expr : List (Str × List (Str × PyVal))) (g : Str) :
    g ∈ sortedGenes expr ↔ ∃ p ∈ expr, g ∈ p.2.map Prod.fst := by
  unfold sortedGenes
  rw [(List.perm_insertionSort strLeR _).mem_iff, List.mem_dedup]
  exact mem_allKeys g expr

/-- `all_genes` is sorted. -/
theorem sortedGenes_sorted (expr : List (Str × List (Str × PyVal))) :
    List.Sorted strLeR (sortedGenes expr) :=
  List.sorted_insertionSort strLeR _

/-- `all_genes` has no duplicates. -/
theorem sortedGenes_nodup (expr : List (Str × List (Str × PyVal))) :
    (sortedGenes expr).Nodup :=
  ((List.perm_insertionSort strLeR _).nodup_iff).mpr (List.nodup_dedup _)

/-- C4: the assembled matrix's columns are the matched samples in
encounter order; its row set is the union of all samples' probe key
sets, sorted and duplicate-free; the matrix has one row per distinct
probe and one column per matched sample (no dropping); and the cell at
`(i, j)` is sample `j`'s value for probe `i` when present, else the NaN
missing sentinel. -/
theorem C4_matrix_shape (expr : List (Str × List (Str × PyVal)))
    (chars : List (Str × List Str)) (platform : List (Str × Str)) (i j : Nat)
    (hi : i < (sortedGenes expr).length) (hj : j < expr.length) :
    (create_orange_table expr (sortedGenes expr) chars platform false).sample_names =
      expr.map Prod.fst ∧
    (∀ g : Str,
      g ∈ (create_orange_table expr (sortedGenes expr) chars platform false).genes ↔
        ∃ p ∈ expr, g ∈ p.2.map Prod.fst) ∧
    List.Sorted strLeR
      (create_orange_table expr (sortedGenes expr) chars platform false).genes ∧
    (create_orange_table expr (sortedGenes expr) chars platform false).genes.Nodup ∧
    (create_orange_table expr (sortedGenes expr) chars platform false).X.length =
      (sortedGenes expr).length ∧
    (∀ row ∈ (create_orange_table expr (sortedGenes expr) chars platform false).X,
      row.length = expr.length) ∧
    ((create_orange_table expr (sortedGenes expr) chars platform false).X.getD i []).getD j
        PyNum.nan =
      ((expr.getD j ([], [])).2.lookup ((sortedGenes expr).getD i [])).elim PyNum.nan
        PyVal.toNum := by
  refine ⟨rfl, fun g => sortedGenes_mem expr g, sortedGenes_sorted expr,
    sortedGenes_nodup expr, by simp [create_orange_table], ?_, ?_⟩
  · intro row hrow
    simp only [create_orange_table, List.mem_map] at hrow
    obtain ⟨g, -, rfl⟩ := hrow
    simp
  · have hX : (create_orange_table expr (sortedGenes expr) chars platform false).X =
        (sortedGenes expr).map (fun g => expr.map (fun p => cellValue false p.2 g)) := rfl
    rw [hX]
    simp only [List.getD_eq_getElem?_getD, List.getElem?_map, List.getElem?_eq_getElem hi,
      List.getElem?_eq_getElem hj, Option.map_some', Option.getD_some]
    cases h : (expr[j].2).lookup ((sortedGenes expr)[i]) <;> simp [cellValue, h]

/-- C4 witness: two samples with disjoint probe maps; the cell of probe
`P2` (owned by sample `S1`) in sample `S2`'s column is the missing
sentinel. -/
theorem C4_matrix_shape_witness :
    (create_orange_table exprW (sortedGenes exprW) [] [] false).sample_names =
      exprW.map Prod.fst ∧
    (∀ g : Str,
      g ∈ (create_orange_table exprW (sortedGenes exprW) [] [] false).genes ↔
        ∃ p ∈ exprW, g ∈ p.2.map Prod.fst) ∧
    List.Sorted strLeR (create_orange_table exprW (sortedGenes exprW) [] [] false).genes ∧
    (create_orange_table exprW (sortedGenes exprW) [] [] false).genes.Nodup ∧
    (create_orange_table exprW (sortedGenes exprW) [] [] false).X.length =
      (sortedGenes exprW).length ∧
    (∀ row ∈ (create_orange_table exprW (sortedGenes exprW) [] [] false).X,
      row.length = exprW.length) ∧
    ((create_orange_table exprW (sortedGenes exprW) [] [] false).X.getD 1 []).getD 1
        PyNum.nan =
      ((exprW.getD 1 ([], [])).2.lookup ((sortedGenes exprW).getD 1 [])).elim PyNum.nan
        PyVal.toNum :=
  C4_matrix_shape exprW [] [] 1 1 (by decide) (by decide)

/-- C6: with `log2_to_linear` set, a present value `v` yields the cell
`applyLog2 v` — the modelled `2 ** v` with its `try/except` mapping
`OverflowError` to NaN rather than letting it escape — and an absent
value stays the missing sentinel; an exponent reaching 1024 overflows to
NaN, an in-range integer exponent gives the exact power `2 ^ v`, an
in-range non-integer exponent gives the exact symbolic power, and the
special float values transform as `2 ** nan = nan`, `2 ** inf = inf`,
`2 ** -inf = 0`. -/
theorem C6_log2_transform (expr : List (Str × List (Str × PyVal)))
    (chars : List (Str × List Str)) (platform : List (Str × Str)) (i j : Nat)
    (dBig dInt dFrac : Dec10)
    (hi : i < (sortedGenes expr).length) (hj : j < expr.length)
    (hBig : dBig.geInt 1024 = true)
    (hIntRange : dInt.geInt 1024 = false) (hIntInt : dInt.isInt = true)
    (hFracRange : dFrac.geInt 1024 = false) (hFracInt : dFrac.isInt = false) :
    (((create_orange_table expr (sortedGenes expr) chars platform true).X.getD i []).getD j
        PyNum.nan =
      ((expr.getD j ([], [])).2.lookup ((sortedGenes expr).getD i [])).elim PyNum.nan
        applyLog2) ∧
    applyLog2 (PyVal.finite dBig) = PyNum.nan ∧
    applyLog2 (PyVal.finite dInt) = PyNum.finite (twoPowInt dInt.toInt) ∧
    applyLog2 (PyVal.finite dFrac) = PyNum.twoPow dFrac ∧
    applyLog2 PyVal.nan = PyNum.nan ∧
    applyLog2 PyVal.inf = PyNum.inf ∧
    applyLog2 PyVal.ninf = PyNum.finite ⟨0, 0⟩ := by
  refine ⟨?_, ?_, ?_, ?_, rfl, rfl, rfl⟩
  · have hX : (create_orange_table expr (sortedGenes expr) chars platform true).X =
        (sortedGenes expr).map (fun g => expr.map (fun p => cellValue true p.2 g)) := rfl
    rw [hX]
    simp only [List.getD_eq_getElem?_getD, List.getElem?_map, List.getElem?_eq_getElem hi,
      List.getElem?_eq_getElem hj, Option.map_some', Option.getD_some]
    cases h : (expr[j].2).lookup ((sortedGenes expr)[i]) <;> simp [cellValue, h]
  · simp [applyLog2, pyTwoPow, hBig]
  · simp [applyLog2, pyTwoPow, hIntRange, hIntInt]
  · simp [applyLog2, pyTwoPow, hFracRange, hFracInt]

/-- C6 witness: `2 ** 3` gives 8, `2 ** 2000` overflows to NaN,
`2 ** 2.5` stays a symbolic exact power. -/
theorem C6_log2_transform_witness :
    (((create_orange_table exprL (sortedGenes exprL) [] [] true).X.getD 0 []).getD 0
        PyNum.nan =
      ((exprL.getD 0 ([], [])).2.lookup ((sortedGenes exprL).getD 0 [])).elim PyNum.nan
        applyLog2) ∧
    applyLog2 (PyVal.finite ⟨2000, 0⟩) = PyNum.nan ∧
    applyLog2 (PyVal.finite ⟨3, 0⟩) = PyNum.finite (twoPowInt (Dec10.toInt ⟨3, 0⟩)) ∧
    applyLog2 (PyVal.finite ⟨25, -1⟩) = PyNum.twoPow ⟨25, -1⟩ ∧
    applyLog2 PyVal.nan = PyNum.nan ∧
    applyLog2 PyVal.inf = PyNum.inf ∧
    applyLog2 PyVal.ninf = PyNum.finite ⟨0, 0⟩ :=
  C6_log2_transform exprL [] [] 0 0 ⟨2000, 0⟩ ⟨3, 0⟩ ⟨25, -1⟩ (by decide) (by decide)
    (by decide) (by decide) (by decide) (by decide) (by decide)

/-- While no title has matched, a non-matching line leaves the title
unmatched and both output accumulators untouched. -/
theorem sampStep_no_title (substring raw : Str) (st : SampState)
    (hm : matchesTitle substring raw = false)
    (ht : st.current_sample_title = none) :
    (sampStep substring st raw).current_sample_title = none ∧
    (sampStep substring st raw).matching_samples = st.matching_samples ∧
    (sampStep substring st raw).sample_characteristics = st.sample_characteristics := by
  have htr : truthy st.current_sample_title = false := by rw [ht]; rfl
  unfold matchesTitle at hm
  unfold sampStep
  simp only [htr, Bool.and_false, Bool.false_and, Bool.and_true, Bool.true_and,
    Bool.false_eq_true, if_false]
  split
  · exact ⟨rfl, rfl, rfl⟩
  · split
    · next h2 =>
      split
      · next h2' =>
        exfalso
        rw [Bool.and_eq_true] at h2
        rw [h2.2, Bool.true_and] at hm
        rw [hm] at h2'
        exact Bool.false_ne_true h2'
      · exact ⟨ht, rfl, rfl⟩
    · split
      · exact ⟨ht, rfl, rfl⟩
      · exact ⟨ht, rfl, rfl⟩

/-- If no line of the stream is a matching title line, the sample pass
produces two empty mappings. -/
theorem runSamples_no_match (substring : Str) :
    ∀ (stream : List RawLine) (st : SampState),
      (∀ s b, RawLine.text s b ∈ stream → matchesTitle substring s = false) →
      st.current_sample_title = none →
      st.matching_samples = [] → st.sample_characteristics = [] →
      runSamples substring st stream = ([], []) := by
  intro stream
  induction stream with
  | nil =>
    intro st _ _ hms hsc
    show (st.matching_samples, st.sample_characteristics) = ([], [])
    rw [hms, hsc]
  | cons hd tl ih =>
    intro st h ht hms hsc
    cases hd with
    | fault => rfl
    | text s bad =>
      cases bad with
      | true => rfl
      | false =>
        have hm := h s false (by simp)
        obtain ⟨ht', hms', hsc'⟩ := sampStep_no_title substring s st hm ht
        show runSamples substring (sampStep substring st s) tl = ([], [])
        exact ih (sampStep substring st s) (fun s' b' hmem => h s' b' (by simp [hmem])) ht'
          (hms'.trans hms) (hsc'.trans hsc)

/-- C3 (counterexample): on a file whose only sample title does not
contain the substring, the pipeline sends `None` — the assembler is
never invoked and no `ExpressionMatrix` (not even the empty 0×0 one the
claim asks for) is produced. -/
theorem C3_no_match_sends_none :
    extract_data true (cleanFile noMatchFile) (str "Basal") false = ExtractResult.sentNone ∧
    extract_data true (cleanFile noMatchFile) (str "Basal") false ≠
      ExtractResult.sentTable (create_orange_table [] [] [] [] false) := by
  refine ⟨by decide, by decide⟩

/-- C3 (amended): for every file and every substring matching no sample
title case-insensitively, the sample parser's two output mappings are
empty, and (for a nonblank substring on an existing file) `extract_data`
detects the empty sample set and sends `None` instead of assembling a
matrix — the no-match condition is distinguishable by the caller. -/
theorem C3_no_match_outputs (stream : List RawLine) (substring : Str) (log2 : Bool)
    (h : ∀ s b, RawLine.text s b ∈ stream → matchesTitle substring s = false) :
    parse_soft_file_directly stream substring = ([], []) ∧
    ((trimStr substring).isEmpty = false →
      extract_data true stream substring log2 = ExtractResult.sentNone) := by
  have hp : parse_soft_file_directly stream substring = ([], []) :=
    runSamples_no_match substring stream initSampState h rfl rfl rfl
  refine ⟨hp, fun hsub => ?_⟩
  unfold extract_data
  simp [hsub, hp]

/-- C3 witness: concrete no-match run. -/
theorem C3_no_match_outputs_witness :
    parse_soft_file_directly (cleanFile noMatchFile) (str "Basal") = ([], []) ∧
    ((trimStr (str "Basal")).isEmpty = false →
      extract_data true (cleanFile noMatchFile) (str "Basal") false =
        ExtractResult.sentNone) :=
  C3_no_match_outputs (cleanFile noMatchFile) (str "Basal") false (by
    intro s b hmem
    simp only [cleanFile, noMatchFile, List.map_cons, List.map_nil, List.mem_cons,
      List.not_mem_nil, or_false, RawLine.text.injEq] at hmem
    rcases hmem with ⟨hs, -⟩ | ⟨hs, -⟩ | ⟨hs, -⟩ | ⟨hs, -⟩ | ⟨hs, -⟩ <;> subst hs <;> decide)

/-- C9: a missing file or a whitespace-only substring makes
`extract_data` return without sending, whatever the file contents — in
particular neither parse pass can influence the outcome, so the request
is rejected before any parsing. -/
theorem C9_invalid_args (fileExists : Bool) (stream : List RawLine) (substring : Str)
    (log2 : Bool) (h : fileExists = false ∨ (trimStr substring).isEmpty = true) :
    extract_data fileExists stream substring log2 = ExtractResult.rejected := by
  unfold extract_data
  rcases h with h | h
  · simp [h]
  · cases fileExists <;> simp [h]

/-- C9 witness: a whitespace-only substring is rejected. -/
theorem C9_invalid_args_witness :
    extract_data true (cleanFile noMatchFile) (str "   ") false = ExtractResult.rejected :=
  C9_invalid_args true (cleanFile noMatchFile) (str "   ") false (Or.inr (by decide))

end GeoSoft

